import Mathlib

/-!
# Verification of the crypto portfolio tracker (`src/crypto_portfolio.py`)

Shallow embedding of the portfolio tracker's data model and operations.
Python dict records become Lean structures; Python floats become `ℚ`
(every claim under verification is about which branches run and which
algebraic combinations the code itself computes, not about rounding);
ISO timestamps produced by `datetime.now().isoformat()` become opaque
`String`s; the price dict returned by `get_price` becomes an
`Option PriceData` (`none` models the falsy empty dict `{}` that
`get_price` returns on network error or unknown coin; `some pd` models a
non-empty dict whose `usd` / `usd_24h_change` keys may each be present
or absent, as read by `dict.get` with default `0`).
-/

namespace CryptoTracker

/-- A holding record, as built by `add_holding` (lines 63–70). -/
structure Holding where
  coin_id : String
  coin_name : String
  symbol : String
  amount : ℚ
  buy_price : ℚ
  date_added : String
  deriving Repr, DecidableEq

/-- A transaction record, as built by `add_holding` (lines 74–80). -/
structure Transaction where
  type : String
  coin_id : String
  amount : ℚ
  price : ℚ
  date : String
  deriving Repr, DecidableEq

/-- The portfolio document `{'holdings': [...], 'transactions': [...]}`
(line 24). -/
structure Portfolio where
  holdings : List Holding
  transactions : List Transaction
  deriving Repr, DecidableEq

/-- A non-empty price dict for one coin, as consumed by
`calculate_portfolio_value` (lines 107–108): the `usd` and
`usd_24h_change` keys may each be missing (`dict.get` then yields the
default `0`).  The dict may be non-empty through other keys alone
(e.g. `usd_market_cap`, requested on line 39), which is why both fields
may be `none` at once. -/
structure PriceData where
  usd : Option ℚ
  usd_24h_change : Option ℚ
  deriving Repr, DecidableEq

/-- One element of `holdings_data` (lines 118–129). -/
structure ValuationRow where
  symbol : String
  coin_name : String
  amount : ℚ
  buy_price : ℚ
  current_price : ℚ
  current_value : ℚ
  invested : ℚ
  profit_loss : ℚ
  profit_loss_pct : ℚ
  change_24h : ℚ
  deriving Repr, DecidableEq

/-- The dict returned by `calculate_portfolio_value` (lines 134–140). -/
structure PortfolioValuation where
  total_value : ℚ
  total_invested : ℚ
  total_profit_loss : ℚ
  total_profit_loss_pct : ℚ
  holdings : List ValuationRow
  deriving Repr, DecidableEq

/-- `add_holding` (lines 60–84).  The imperative method mutates
`self.portfolio`; here it is state passing.  The method calls
`datetime.now()` twice — once for the holding (line 69) and once for the
transaction (line 79) — so the embedding takes the two clock readings
`now1` and `now2` as separate arguments, in call order. -/
def add_holding (p : Portfolio) (coin_id coin_name symbol : String)
    (amount buy_price : ℚ) (now1 now2 : String) : Portfolio :=
  { holdings := p.holdings ++
      [{ coin_id := coin_id, coin_name := coin_name,
         symbol := symbol.toUpper, amount := amount,
         buy_price := buy_price, date_added := now1 }],
    transactions := p.transactions ++
      [{ type := "buy", coin_id := coin_id, amount := amount,
         price := buy_price, date := now2 }] }

/-- `remove_holding` (lines 86–93).  Returns the portfolio after the
call together with a flag: `true` when the bounds check passed and
`list.pop(index)` ran, `false` when the method only printed
`"Invalid index"` (the `IndexOutOfRange` report of the spec) and left
the portfolio untouched.  The Python `index` is a signed int. -/
def remove_holding (p : Portfolio) (index : Int) : Portfolio × Bool :=
  if 0 ≤ index ∧ index < (p.holdings.length : Int) then
    ({ p with holdings := p.holdings.eraseIdx index.toNat }, true)
  else
    (p, false)

/-- The body of the `for holding in self.portfolio['holdings']` loop of
`calculate_portfolio_value` for one holding whose price dict is
non-empty (lines 107–129), producing its `holdings_data` entry.
`pd.usd.getD 0` is `price_data.get('usd', 0)`. -/
def rowOf (pd : PriceData) (h : Holding) : ValuationRow :=
  let current_price := pd.usd.getD 0
  let change_24h := pd.usd_24h_change.getD 0
  let current_value := h.amount * current_price
  let invested := h.amount * h.buy_price
  let profit_loss := current_value - invested
  let profit_loss_pct := if invested > 0 then profit_loss / invested * 100 else 0
  { symbol := h.symbol, coin_name := h.coin_name, amount := h.amount,
    buy_price := h.buy_price, current_price := current_price,
    current_value := current_value, invested := invested,
    profit_loss := profit_loss, profit_loss_pct := profit_loss_pct,
    change_24h := change_24h }

/-- The accumulation loop of `calculate_portfolio_value`
(lines 97–129): running totals `total_value`, `total_invested` and the
`holdings_data` list.  `price_lookup` stands for `self.get_price`;
`none` is the empty dict, on which line 104 `continue`s. -/
def valuationLoop (price_lookup : String → Option PriceData) :
    List Holding → ℚ × ℚ × List ValuationRow
  | [] => (0, 0, [])
  | h :: rest =>
    match price_lookup h.coin_id with
    | none => valuationLoop price_lookup rest
    | some pd =>
      let row := rowOf pd h
      let acc := valuationLoop price_lookup rest
      (row.current_value + acc.1, row.invested + acc.2.1, row :: acc.2.2)

/-- `calculate_portfolio_value` (lines 95–140). -/
def calculate_portfolio_value (p : Portfolio)
    (price_lookup : String → Option PriceData) : PortfolioValuation :=
  let acc := valuationLoop price_lookup p.holdings
  let total_value := acc.1
  let total_invested := acc.2.1
  let total_profit_loss := total_value - total_invested
  { total_value := total_value, total_invested := total_invested,
    total_profit_loss := total_profit_loss,
    total_profit_loss_pct :=
      if total_invested > 0 then total_profit_loss / total_invested * 100 else 0,
    holdings := acc.2.2 }

/-- The row built for a holding, reading its price through the lookup;
equals `rowOf pd h` whenever `price_lookup h.coin_id = some pd`. -/
def rowThrough (price_lookup : String → Option PriceData) (h : Holding) :
    ValuationRow :=
  rowOf ((price_lookup h.coin_id).getD ⟨none, none⟩) h

/-- Whether a holding's lookup returns a (non-empty) quote dict. -/
def resolves (price_lookup : String → Option PriceData) (h : Holding) : Bool :=
  (price_lookup h.coin_id).isSome

/-! ## The portfolio store (`load_portfolio` / `save_portfolio`)

`save_portfolio` (lines 26–29) writes `json.dump(self.portfolio)` and
`load_portfolio` (lines 19–24) reads it back with `json.load`, or
returns the empty portfolio when the file does not exist.  The text
layer is the standard `json` library — an external collaborator — whose
dump/parse pair is faithful on the documents this program writes, so
the file contents are modelled as the JSON document tree itself.  The
running Python program keeps the portfolio as that very document
(a dict); the typed embedding therefore pairs the encoding of the
document the program writes with the structured reading of it, and the
round-trip claim becomes `decode ∘ encode = some`. -/

/-- A JSON document tree (the fragment this program writes). -/
inductive Json where
  | num : ℚ → Json
  | str : String → Json
  | arr : List Json → Json
  | obj : List (String × Json) → Json

/-- Field access on a JSON object. -/
def Json.getField : Json → String → Option Json
  | .obj kvs, k => kvs.lookup k
  | _, _ => none

/-- Read a JSON string. -/
def Json.asStr : Json → Option String
  | .str s => some s
  | _ => none

/-- Read a JSON number. -/
def Json.asNum : Json → Option ℚ
  | .num q => some q
  | _ => none

/-- Read a JSON array. -/
def Json.asArr : Json → Option (List Json)
  | .arr xs => some xs
  | _ => none

/-- The holding dict as written to the file (the shape built on
lines 63–70). -/
def encodeHolding (h : Holding) : Json :=
  .obj [("coin_id", .str h.coin_id), ("coin_name", .str h.coin_name),
        ("symbol", .str h.symbol), ("amount", .num h.amount),
        ("buy_price", .num h.buy_price), ("date_added", .str h.date_added)]

/-- The transaction dict as written to the file (the shape built on
lines 74–80). -/
def encodeTransaction (t : Transaction) : Json :=
  .obj [("type", .str t.type), ("coin_id", .str t.coin_id),
        ("amount", .num t.amount), ("price", .num t.price),
        ("date", .str t.date)]

/-- Structured reading of a stored holding dict. -/
def decodeHolding (j : Json) : Option Holding := do
  let coin_id ← (j.getField "coin_id").bind Json.asStr
  let coin_name ← (j.getField "coin_name").bind Json.asStr
  let symbol ← (j.getField "symbol").bind Json.asStr
  let amount ← (j.getField "amount").bind Json.asNum
  let buy_price ← (j.getField "buy_price").bind Json.asNum
  let date_added ← (j.getField "date_added").bind Json.asStr
  pure ⟨coin_id, coin_name, symbol, amount, buy_price, date_added⟩

/-- Structured reading of a stored transaction dict. -/
def decodeTransaction (j : Json) : Option Transaction := do
  let type ← (j.getField "type").bind Json.asStr
  let coin_id ← (j.getField "coin_id").bind Json.asStr
  let amount ← (j.getField "amount").bind Json.asNum
  let price ← (j.getField "price").bind Json.asNum
  let date ← (j.getField "date").bind Json.asStr
  pure ⟨type, coin_id, amount, price, date⟩

/-- `save_portfolio` (lines 26–29): the document
`{'holdings': [...], 'transactions': [...]}` written to the file. -/
def save_portfolio (p : Portfolio) : Json :=
  .obj [("holdings", .arr (p.holdings.map encodeHolding)),
        ("transactions", .arr (p.transactions.map encodeTransaction))]

/-- Decode every element of a stored array. -/
def decodeList (dec : Json → Option α) : List Json → Option (List α)
  | [] => some []
  | j :: rest => do
    let x ← dec j
    let xs ← decodeList dec rest
    pure (x :: xs)

/-- `load_portfolio` (lines 19–24): an absent file yields the empty
portfolio (line 24); otherwise the stored document is read back.
Reading into the typed model is the structured decoding of the
document. -/
def load_portfolio (file : Option Json) : Option Portfolio :=
  match file with
  | none => some ⟨[], []⟩
  | some j => do
    let hj ← (j.getField "holdings").bind Json.asArr
    let tj ← (j.getField "transactions").bind Json.asArr
    let hs ← decodeList decodeHolding hj
    let ts ← decodeList decodeTransaction tj
    pure ⟨hs, ts⟩

/-! ## Concrete sample data used by the witness theorems -/

/-- Two BTC bought at 100 USD. -/
def hBTC : Holding :=
  ⟨"bitcoin", "Bitcoin", "BTC", 2, 100, "2024-01-01T00:00:00"⟩

/-- Three ETH bought at 50 USD; its price lookup fails below. -/
def hETH : Holding :=
  ⟨"ethereum", "Ethereum", "ETH", 3, 50, "2024-01-02T00:00:00"⟩

/-- Five DOGE with `buy_price = 0` (airdrop). -/
def hZero : Holding :=
  ⟨"dogecoin", "Dogecoin", "DOGE", 5, 0, "2024-01-03T00:00:00"⟩

/-- A holding with negative `amount`, hence negative invested value;
nothing in the code rejects it. -/
def hNeg : Holding :=
  ⟨"solana", "Solana", "SOL", -1, 100, "2024-01-04T00:00:00"⟩

/-- Seven USDT; its quote dict below is non-empty but has no `usd`
key. -/
def hNoUsd : Holding :=
  ⟨"tether", "Tether", "USDT", 7, 1, "2024-01-05T00:00:00"⟩

/-- A sample price lookup: `ethereum` fails (empty dict), `tether`
returns a non-empty dict without a `usd` key, the rest resolve. -/
def plSample : String → Option PriceData := fun cid =>
  if cid = "bitcoin" then some ⟨some 150, some 5⟩
  else if cid = "dogecoin" then some ⟨some 1, none⟩
  else if cid = "solana" then some ⟨some 150, none⟩
  else if cid = "tether" then some ⟨none, some 2⟩
  else none

/-- Unfolding of the valuation loop: the rows are exactly the
resolving holdings, in order, mapped through the per-holding body, and
the two running totals are the sums of the corresponding row fields. -/
theorem valuationLoop_spec (pl : String → Option PriceData)
    (hs : List Holding) :
    valuationLoop pl hs =
      (((hs.filter (resolves pl)).map fun h => (rowThrough pl h).current_value).sum,
       ((hs.filter (resolves pl)).map fun h => (rowThrough pl h).invested).sum,
       (hs.filter (resolves pl)).map (rowThrough pl)) := by
  induction hs with
  | nil => simp [valuationLoop]
  | cons h rest ih =>
    cases hpl : pl h.coin_id with
    | none =>
      simp [valuationLoop, hpl, resolves, ih]
    | some pd =>
      simp [valuationLoop, hpl, resolves, rowThrough, ih]

theorem valuate_holdings_eq (p : Portfolio) (pl : String → Option PriceData) :
    (calculate_portfolio_value p pl).holdings =
      (p.holdings.filter (resolves pl)).map (rowThrough pl) := by
  simp [calculate_portfolio_value, valuationLoop_spec]

theorem valuate_total_value_eq (p : Portfolio)
    (pl : String → Option PriceData) :
    (calculate_portfolio_value p pl).total_value =
      ((calculate_portfolio_value p pl).holdings.map
        ValuationRow.current_value).sum := by
  simp [calculate_portfolio_value, valuationLoop_spec, Function.comp_def]

theorem valuate_total_invested_eq (p : Portfolio)
    (pl : String → Option PriceData) :
    (calculate_portfolio_value p pl).total_invested =
      ((calculate_portfolio_value p pl).holdings.map
        ValuationRow.invested).sum := by
  simp [calculate_portfolio_value, valuationLoop_spec, Function.comp_def]

/-- C1: `valuate` produces exactly one row per holding whose lookup
returns a quote, in input holding order with no merging of duplicate
coin ids; a holding whose lookup returns no quote produces no row; the
row count is at most the holding count, with equality iff every
holding's coin id resolves. -/
theorem valuate_row_per_resolving_holding (p : Portfolio)
    (pl : String → Option PriceData) :
    (calculate_portfolio_value p pl).holdings
        = (p.holdings.filter (resolves pl)).map (rowThrough pl)
    ∧ (calculate_portfolio_value p pl).holdings.length ≤ p.holdings.length
    ∧ ((calculate_portfolio_value p pl).holdings.length = p.holdings.length
        ↔ ∀ h ∈ p.holdings, resolves pl h)
    ∧ (calculate_portfolio_value p pl).total_value
        = ((p.holdings.filter (resolves pl)).map
            fun h => (rowThrough pl h).current_value).sum
    ∧ (calculate_portfolio_value p pl).total_invested
        = ((p.holdings.filter (resolves pl)).map
            fun h => (rowThrough pl h).invested).sum := by
  refine ⟨valuate_holdings_eq p pl, ?_, ?_, ?_, ?_⟩
  · rw [valuate_holdings_eq, List.length_map]
    exact List.length_filter_le _ _
  · rw [valuate_holdings_eq, List.length_map]
    exact List.filter_length_eq_length
  · simp [calculate_portfolio_value, valuationLoop_spec]
  · simp [calculate_portfolio_value, valuationLoop_spec]

/-- Closed instance of C1 on sample data. -/
theorem valuate_row_per_resolving_holding_witness :
    (calculate_portfolio_value ⟨[hBTC, hETH], []⟩ plSample).holdings.length
      ≤ (Portfolio.holdings ⟨[hBTC, hETH], []⟩).length :=
  (valuate_row_per_resolving_holding ⟨[hBTC, hETH], []⟩ plSample).2.1

/-- C2: each produced row satisfies the per-row arithmetic, and the
aggregates are the sums over exactly the produced rows, with
`total_profit_loss = total_value - total_invested`. -/
theorem valuate_row_math (p : Portfolio) (pl : String → Option PriceData) :
    (∀ r ∈ (calculate_portfolio_value p pl).holdings,
        r.current_value = r.amount * r.current_price
        ∧ r.invested = r.amount * r.buy_price
        ∧ r.profit_loss = r.current_value - r.invested)
    ∧ (calculate_portfolio_value p pl).total_value
        = ((calculate_portfolio_value p pl).holdings.map
            ValuationRow.current_value).sum
    ∧ (calculate_portfolio_value p pl).total_invested
        = ((calculate_portfolio_value p pl).holdings.map
            ValuationRow.invested).sum
    ∧ (calculate_portfolio_value p pl).total_profit_loss
        = (calculate_portfolio_value p pl).total_value
            - (calculate_portfolio_value p pl).total_invested := by
  refine ⟨?_, valuate_total_value_eq p pl, valuate_total_invested_eq p pl, ?_⟩
  · rw [valuate_holdings_eq]
    intro r hr
    obtain ⟨h, -, rfl⟩ := List.mem_map.mp hr
    exact ⟨rfl, rfl, rfl⟩
  · simp [calculate_portfolio_value]

/-- Closed instance of C2 on sample data. -/
theorem valuate_row_math_witness :
    (rowThrough plSample hBTC).current_value
      = (rowThrough plSample hBTC).amount
          * (rowThrough plSample hBTC).current_price :=
  ((valuate_row_math ⟨[hBTC], []⟩ plSample).1 _ (by
    rw [valuate_holdings_eq]
    simp [hBTC, plSample, resolves])).1

/-- C4: a produced row with `buy_price = 0` has `profit_loss_pct = 0`
(the division is guarded by `invested > 0`), and
`total_profit_loss_pct = 0` when `total_invested = 0`. -/
theorem profit_pct_zero_guard (p : Portfolio)
    (pl : String → Option PriceData) :
    (∀ r ∈ (calculate_portfolio_value p pl).holdings,
        r.buy_price = 0 → r.profit_loss_pct = 0)
    ∧ ((calculate_portfolio_value p pl).total_invested = 0 →
        (calculate_portfolio_value p pl).total_profit_loss_pct = 0) := by
  constructor
  · rw [valuate_holdings_eq]
    intro r hr hbp
    obtain ⟨h, -, rfl⟩ := List.mem_map.mp hr
    have hb : h.buy_price = 0 := hbp
    simp [rowThrough, rowOf, hb]
  · intro h0
    simp only [calculate_portfolio_value] at h0 ⊢
    rw [h0]
    simp

/-- Closed instance of C4 on sample data. -/
theorem profit_pct_zero_guard_witness :
    (rowThrough plSample hZero).profit_loss_pct = 0 :=
  (profit_pct_zero_guard ⟨[hZero], []⟩ plSample).1 _ (by
    rw [valuate_holdings_eq]
    simp [hZero, plSample, resolves]) rfl

/-- C10: the guard is the strict test `invested > 0`, so a row with
negative invested value gets `profit_loss_pct = 0`, and
`total_profit_loss_pct = 0` whenever `total_invested` is negative. -/
theorem profit_pct_zero_on_negative (p : Portfolio)
    (pl : String → Option PriceData) :
    (∀ r ∈ (calculate_portfolio_value p pl).holdings,
        r.invested < 0 → r.profit_loss_pct = 0)
    ∧ ((calculate_portfolio_value p pl).total_invested < 0 →
        (calculate_portfolio_value p pl).total_profit_loss_pct = 0) := by
  constructor
  · rw [valuate_holdings_eq]
    intro r hr hneg
    obtain ⟨h, -, rfl⟩ := List.mem_map.mp hr
    have hni : ¬ ((0 : ℚ) < h.amount * h.buy_price) := by
      have : (rowThrough pl h).invested = h.amount * h.buy_price := rfl
      rw [this] at hneg
      linarith
    simp [rowThrough, rowOf] at hni ⊢
    intro hlt
    exact absurd hlt (not_lt.mpr hni)
  · intro hneg
    simp only [calculate_portfolio_value] at hneg ⊢
    rw [if_neg (by linarith)]

/-- Closed instance of C10 on sample data. -/
theorem profit_pct_zero_on_negative_witness :
    (rowThrough plSample hNeg).profit_loss_pct = 0 :=
  (profit_pct_zero_on_negative ⟨[hNeg], []⟩ plSample).1 _ (by
    rw [valuate_holdings_eq]
    simp [hNeg, plSample, resolves])
    (by norm_num [rowThrough, rowOf, hNeg, plSample])

/-- C5: an out-of-range index (negative, or ≥ the number of holdings)
makes `remove_holding` report failure and leave both the holdings and
the transactions exactly as they were. -/
theorem remove_holding_out_of_range (p : Portfolio) (i : Int)
    (hout : i < 0 ∨ (p.holdings.length : Int) ≤ i) :
    remove_holding p i = (p, false) := by
  unfold remove_holding
  rw [if_neg]
  rintro ⟨h0, h1⟩
  rcases hout with h | h <;> omega

/-- Closed instance of C5 at `index = len(holdings)`. -/
theorem remove_holding_out_of_range_witness :
    remove_holding ⟨[hBTC], []⟩ 1 = (⟨[hBTC], []⟩, false) :=
  remove_holding_out_of_range ⟨[hBTC], []⟩ 1 (Or.inr (by simp))

/-- C6: an in-range removal is a pure positional delete — the holdings
become `take i ++ drop (i+1)` — and the transactions are unchanged. -/
theorem remove_holding_in_range (p : Portfolio) (i : Int) (h0 : 0 ≤ i)
    (h1 : i < (p.holdings.length : Int)) :
    (remove_holding p i).1.holdings
        = p.holdings.take i.toNat ++ p.holdings.drop (i.toNat + 1)
    ∧ (remove_holding p i).1.transactions = p.transactions
    ∧ (remove_holding p i).2 = true := by
  unfold remove_holding
  rw [if_pos ⟨h0, h1⟩]
  exact ⟨List.eraseIdx_eq_take_drop_succ _ _, rfl, rfl⟩

/-- Closed instance of C6 on sample data. -/
theorem remove_holding_in_range_witness :
    (remove_holding ⟨[hBTC, hETH], []⟩ 0).1.holdings
        = [hBTC, hETH].take 0 ++ [hBTC, hETH].drop 1
    ∧ (remove_holding ⟨[hBTC, hETH], []⟩ 0).1.transactions = ([] : List Transaction)
    ∧ (remove_holding ⟨[hBTC, hETH], []⟩ 0).2 = true :=
  remove_holding_in_range ⟨[hBTC, hETH], []⟩ 0 (by simp) (by simp)

/-- C7: `add_holding` appends exactly one holding (symbol uppercased)
and exactly one `buy` transaction whose coin id, amount and price match
the holding; both lengths grow by one and all earlier elements are kept
as a prefix. -/
theorem add_holding_appends_matching (p : Portfolio)
    (cid cname sym : String) (amount buy_price : ℚ) (now1 now2 : String) :
    ∃ h t,
      (add_holding p cid cname sym amount buy_price now1 now2).holdings
          = p.holdings ++ [h]
      ∧ (add_holding p cid cname sym amount buy_price now1 now2).transactions
          = p.transactions ++ [t]
      ∧ h.symbol = sym.toUpper
      ∧ t.type = "buy"
      ∧ t.coin_id = h.coin_id
      ∧ t.amount = h.amount
      ∧ t.price = h.buy_price
      ∧ (add_holding p cid cname sym amount buy_price now1 now2).holdings.length
          = p.holdings.length + 1
      ∧ (add_holding p cid cname sym amount buy_price now1 now2).transactions.length
          = p.transactions.length + 1 := by
  refine ⟨_, _, rfl, rfl, rfl, rfl, rfl, rfl, rfl, ?_, ?_⟩ <;>
    simp [add_holding]

/-- C3: the two timestamps written by one `add_holding` call come from
two separate `datetime.now()` readings, so when the clock advances
between them the holding's `date_added` and the transaction's `date`
differ. -/
theorem add_holding_two_clock_readings :
    ((add_holding ⟨[], []⟩ "bitcoin" "Bitcoin" "btc" 1 100
        "2026-10-12T10:00:00.000001" "2026-10-12T10:00:00.000007").holdings.map
          Holding.date_added)
        = ["2026-10-12T10:00:00.000001"]
    ∧ ((add_holding ⟨[], []⟩ "bitcoin" "Bitcoin" "btc" 1 100
        "2026-10-12T10:00:00.000001" "2026-10-12T10:00:00.000007").transactions.map
          Transaction.date)
        = ["2026-10-12T10:00:00.000007"]
    ∧ "2026-10-12T10:00:00.000001" ≠ "2026-10-12T10:00:00.000007" :=
  ⟨by simp [add_holding], by simp [add_holding], by decide⟩

theorem decodeHolding_encodeHolding (h : Holding) :
    decodeHolding (encodeHolding h) = some h := rfl

theorem decodeTransaction_encodeTransaction (t : Transaction) :
    decodeTransaction (encodeTransaction t) = some t := rfl

theorem decodeList_encodeHolding (hs : List Holding) :
    decodeList decodeHolding (hs.map encodeHolding) = some hs := by
  induction hs with
  | nil => rfl
  | cons h rest ih =>
    simp [decodeList, decodeHolding_encodeHolding, ih]

theorem decodeList_encodeTransaction (ts : List Transaction) :
    decodeList decodeTransaction (ts.map encodeTransaction) = some ts := by
  induction ts with
  | nil => rfl
  | cons t rest ih =>
    simp [decodeList, decodeTransaction_encodeTransaction, ih]

/-- C8: loading a saved portfolio yields the portfolio back,
`load(save(p)) = p`. -/
theorem load_save_roundtrip (p : Portfolio) :
    load_portfolio (some (save_portfolio p)) = some p := by
  cases p with
  | mk hs ts =>
    simp [load_portfolio, save_portfolio, Json.getField, Json.asArr,
      List.lookup, decodeList_encodeHolding, decodeList_encodeTransaction]

/-- C9: a holding whose quote dict is non-empty but lacks the `usd` key
is not skipped: it yields a row with `current_price = 0`, hence
`current_value = 0` and `profit_loss = -invested`, and the aggregate
totals sum over all produced rows, this one included. -/
theorem missing_usd_key_not_skipped (p : Portfolio)
    (pl : String → Option PriceData) (h : Holding) (pd : PriceData)
    (hmem : h ∈ p.holdings) (hpl : pl h.coin_id = some pd)
    (husd : pd.usd = none) :
    rowThrough pl h ∈ (calculate_portfolio_value p pl).holdings
    ∧ (rowThrough pl h).current_price = 0
    ∧ (rowThrough pl h).current_value = 0
    ∧ (rowThrough pl h).profit_loss = -(rowThrough pl h).invested
    ∧ (calculate_portfolio_value p pl).total_value
        = ((calculate_portfolio_value p pl).holdings.map
            ValuationRow.current_value).sum
    ∧ (calculate_portfolio_value p pl).total_invested
        = ((calculate_portfolio_value p pl).holdings.map
            ValuationRow.invested).sum := by
  refine ⟨?_, ?_, ?_, ?_, valuate_total_value_eq p pl,
    valuate_total_invested_eq p pl⟩
  · rw [valuate_holdings_eq]
    exact List.mem_map_of_mem _
      (List.mem_filter.mpr ⟨hmem, by simp [resolves, hpl]⟩)
  · simp [rowThrough, rowOf, hpl, husd]
  · simp [rowThrough, rowOf, hpl, husd]
  · simp [rowThrough, rowOf, hpl, husd]

/-- Closed instance of C9 on sample data. -/
theorem missing_usd_key_not_skipped_witness :
    rowThrough plSample hNoUsd
        ∈ (calculate_portfolio_value ⟨[hNoUsd], []⟩ plSample).holdings
    ∧ (rowThrough plSample hNoUsd).current_price = 0
    ∧ (rowThrough plSample hNoUsd).current_value = 0
    ∧ (rowThrough plSample hNoUsd).profit_loss
        = -(rowThrough plSample hNoUsd).invested
    ∧ (calculate_portfolio_value ⟨[hNoUsd], []⟩ plSample).total_value
        = ((calculate_portfolio_value ⟨[hNoUsd], []⟩ plSample).holdings.map
            ValuationRow.current_value).sum
    ∧ (calculate_portfolio_value ⟨[hNoUsd], []⟩ plSample).total_invested
        = ((calculate_portfolio_value ⟨[hNoUsd], []⟩ plSample).holdings.map
            ValuationRow.invested).sum :=
  missing_usd_key_not_skipped ⟨[hNoUsd], []⟩ plSample hNoUsd ⟨none, some 2⟩
    (by simp) (by simp [hNoUsd, plSample]) rfl

end CryptoTracker
